import Mathlib

/-!
Verification of the retrying LLM-completion client of the newrole-rag
repository (conversation service adapters `openai_service.py` and
`claude_ai_service.py`): token-budgeted prompt assembly, retry loop with
exponential backoff and jitter, and structured-response parsing with
raw-text fallback.

Numeric modelling conventions: Python ints are `Nat`/`Int`; Python floats
in the backoff computation are modelled as `ℚ` (the claims about them are
order/monotonicity facts); the external tokenizer `count_tokens` and the
external `json.loads` are collaborators, modelled respectively as a
function parameter `count : String → Nat` and as the already-computed
parse outcome `Option Json` of the raw response text.
-/

/-- JSON values, as produced by the external `json.loads`. -/
inductive Json where
  | null : Json
  | bool : Bool → Json
  | num : Int → Json
  | str : String → Json
  | arr : List Json → Json
  | obj : List (String × Json) → Json

/-- Python exception classes that appear in the adapters. -/
inductive PyErr where
  | rateLimitError
  | jsonDecodeError
  | attributeError
  | nameError
  | runtimeError (msg : String)
  | otherError (tag : String)
deriving DecidableEq

/-- Python dict lookup for a dict built from a JSON object literal:
later duplicate keys override earlier ones, hence lookup on the
reversed field list. -/
def dictGet (fields : List (String × Json)) (key : String) : Option Json :=
  fields.reverse.lookup key

/-- Model of the Python string method call `s.replace("**", "")`:
delete non-overlapping occurrences of two consecutive stars,
scanning left to right. -/
def removeDoubleStar : List Char → List Char
  | [] => []
  | '*' :: '*' :: rest => removeDoubleStar rest
  | c :: rest => c :: removeDoubleStar rest

/-- The `message.replace("**", "")` cleanup in `OpenAIService.generate_response`. -/
def stripEmphasis (s : String) : String :=
  String.mk (removeDoubleStar s.data)

/-- The sentinel payload both adapters return when JSON parsing fails. -/
def errorPayload : Json :=
  Json.obj [("error", Json.str "Could not parse JSON response")]

/-- Post-parse handling of a completion response in
`OpenAIService.generate_response` (openai_service.py lines 174-191):
on parse success extract `message` (default empty), which must be a
string for `.replace` to work, strip double stars, and extract
`payload` (default empty dict); on `json.JSONDecodeError` return the raw
content together with the sentinel error payload. A parsed value that is
not a dict makes `.get` raise `AttributeError`, which the outer
`except Exception` re-raises. -/
def openaiHandleContent (raw : String) (parsed : Option Json) :
    Except PyErr (Json × Json) :=
  match parsed with
  | none =>
      Except.ok (Json.str raw, errorPayload)
  | some (Json.obj fields) =>
      match (dictGet fields "message").getD (Json.str "") with
      | Json.str s =>
          Except.ok (Json.str (stripEmphasis s),
            (dictGet fields "payload").getD (Json.obj []))
      | _ => Except.error PyErr.attributeError
  | some _ => Except.error PyErr.attributeError

/-- Post-parse handling of a completion response in
`ClaudeAIService.generate_response` (claude_ai_service.py lines 110-122):
identical to the OpenAI variant except that the message is returned
verbatim, with no double-star stripping. -/
def claudeHandleContent (raw : String) (parsed : Option Json) :
    Except PyErr (Json × Json) :=
  match parsed with
  | none =>
      Except.ok (Json.str raw, errorPayload)
  | some (Json.obj fields) =>
      Except.ok ((dictGet fields "message").getD (Json.str ""),
        (dictGet fields "payload").getD (Json.obj []))
  | some _ => Except.error PyErr.attributeError

/-- Names bound at module level by the import statements of
openai_service.py (lines 1-14). -/
def openaiImportedNames : List String :=
  ["asyncio", "json", "random", "datetime", "timezone", "Any", "tiktoken",
   "AsyncOpenAI", "RateLimitError", "Logger", "Prompt", "Message",
   "VectorizedKnowledge", "AIService"]

/-- Names bound at module level by the import statements of
claude_ai_service.py (lines 1-12). Note the absence of `random`. -/
def claudeImportedNames : List String :=
  ["asyncio", "json", "Any", "Anthropic", "RateLimitError", "Logger",
   "Prompt", "Message", "VectorizedKnowledge", "AIService"]

/-- The body shared by both `_exponential_backoff` methods:
`wait_time = min(max_wait, initial_wait * 2 ** (attempt - 1))` followed by
`jitter = wait_time * random.uniform(0.5, 1.5)`. Evaluating the name
`random` raises `NameError` unless the enclosing module imported it.
The uniform draw is the parameter `u`. Floats are modelled as `ℚ`. -/
def moduleBackoff (names : List String) (initialWait maxWait u : ℚ)
    (attempt : Nat) : Except PyErr ℚ :=
  let waitTime := min maxWait (initialWait * 2 ^ (attempt - 1))
  if "random" ∈ names then Except.ok (waitTime * u)
  else Except.error PyErr.nameError

/-- `OpenAIService._exponential_backoff` (openai_service.py lines 122-134). -/
def openaiExponentialBackoff (initialWait maxWait u : ℚ) (attempt : Nat) :
    Except PyErr ℚ :=
  moduleBackoff openaiImportedNames initialWait maxWait u attempt

/-- `ClaudeAIService._exponential_backoff` (claude_ai_service.py lines 53-66). -/
def claudeExponentialBackoff (initialWait maxWait u : ℚ) (attempt : Nat) :
    Except PyErr ℚ :=
  moduleBackoff claudeImportedNames initialWait maxWait u attempt

/-- The un-jittered wait time `min(max_wait, initial_wait * 2 ** (attempt - 1))`. -/
def exponentialBackoffWait (initialWait maxWait : ℚ) (attempt : Nat) : ℚ :=
  min maxWait (initialWait * 2 ^ (attempt - 1))

/-- Outcome of one `chat.completions.create` / `messages.create` attempt,
as observed by the retry loop: the API succeeded and the raw content text
parsed to `parsed` (the result of the external `json.loads`, `none` on
`JSONDecodeError`), or the SDK raised `RateLimitError`, or it raised some
other exception. -/
inductive ApiOutcome where
  | success (raw : String) (parsed : Option Json)
  | rateLimit
  | otherError (tag : String)

/-- Value produced by one invocation of `generate_response`: an explicit
returned pair, or the implicit Python `None` when the `for` loop body
never runs (max_retries = 0) and control falls off the function end. -/
inductive RunResult where
  | value (v : Json × Json)
  | nonePy

/-- Observable trace of one `generate_response` invocation: number of API
attempts issued, number of `_exponential_backoff` calls, number of
completed `asyncio.sleep` delays, and the final returned value or raised
exception. -/
structure Trace where
  attempts : Nat
  backoffCalls : Nat
  sleeps : Nat
  result : Except PyErr RunResult

/-- One iteration of the `for attempt in range(1, self._max_retries + 1)`
loop of `generate_response` (openai_service.py lines 161-206,
claude_ai_service.py lines 99-139), with `fuel` the number of loop
iterations still available, recursing on a retryable rate-limit error and
terminating on every other branch exactly as the Python code does. -/
def runLoopGo (handle : String → Option Json → Except PyErr (Json × Json))
    (backoff : Nat → Except PyErr ℚ) (outcomes : Nat → ApiOutcome)
    (maxRetries : Nat) :
    Nat → Nat → Nat → Nat → Nat → Trace
  | 0, _, attempts, calls, sleeps =>
      ⟨attempts, calls, sleeps, Except.ok RunResult.nonePy⟩
  | fuel + 1, attempt, attempts, calls, sleeps =>
      match outcomes attempt with
      | ApiOutcome.success raw parsed =>
          match handle raw parsed with
          | Except.ok v => ⟨attempts + 1, calls, sleeps, Except.ok (RunResult.value v)⟩
          | Except.error e => ⟨attempts + 1, calls, sleeps, Except.error e⟩
      | ApiOutcome.rateLimit =>
          if attempt = maxRetries then
            ⟨attempts + 1, calls, sleeps, Except.error PyErr.rateLimitError⟩
          else
            match backoff attempt with
            | Except.ok _ =>
                runLoopGo handle backoff outcomes maxRetries fuel (attempt + 1)
                  (attempts + 1) (calls + 1) (sleeps + 1)
            | Except.error e =>
                ⟨attempts + 1, calls + 1, sleeps, Except.error e⟩
      | ApiOutcome.otherError tag =>
          ⟨attempts + 1, calls, sleeps, Except.error (PyErr.otherError tag)⟩

/-- Run the retry loop from attempt 1 with `maxRetries` available iterations. -/
def runLoop (handle : String → Option Json → Except PyErr (Json × Json))
    (backoff : Nat → Except PyErr ℚ) (outcomes : Nat → ApiOutcome)
    (maxRetries : Nat) : Trace :=
  runLoopGo handle backoff outcomes maxRetries maxRetries 1 0 0 0

/-- Trace of `OpenAIService.generate_response` (openai_service.py lines
161-206), with jitter draws `u`. -/
def openaiGenerateResponseTrace (initialWait maxWait : ℚ) (u : Nat → ℚ)
    (outcomes : Nat → ApiOutcome) (maxRetries : Nat) : Trace :=
  runLoop openaiHandleContent
    (fun n => openaiExponentialBackoff initialWait maxWait (u n) n)
    outcomes maxRetries

/-- Trace of `ClaudeAIService.generate_response` (claude_ai_service.py lines
99-139), with jitter draws `u`. -/
def claudeGenerateResponseTrace (initialWait maxWait : ℚ) (u : Nat → ℚ)
    (outcomes : Nat → ApiOutcome) (maxRetries : Nat) : Trace :=
  runLoop claudeHandleContent
    (fun n => claudeExponentialBackoff initialWait maxWait (u n) n)
    outcomes maxRetries

lemma runLoopGo_allRateLimit
    (handle : String → Option Json → Except PyErr (Json × Json))
    (backoff : Nat → Except PyErr ℚ) (outcomes : Nat → ApiOutcome)
    (maxRetries : Nat)
    (hout : ∀ n, outcomes n = ApiOutcome.rateLimit)
    (hb : ∀ n, ∃ q, backoff n = Except.ok q) :
    ∀ fuel attempt attempts calls sleeps, 1 ≤ fuel →
      attempt + fuel = maxRetries + 1 →
      runLoopGo handle backoff outcomes maxRetries fuel attempt attempts calls sleeps
        = ⟨attempts + fuel, calls + (fuel - 1), sleeps + (fuel - 1),
            Except.error PyErr.rateLimitError⟩ := by
  intro fuel
  induction fuel with
  | zero => intro attempt attempts calls sleeps h1 _; omega
  | succ f ih =>
    intro attempt attempts calls sleeps _ hsum
    rcases Nat.eq_zero_or_pos f with hf | hf
    · subst hf
      have ha : attempt = maxRetries := by omega
      simp [runLoopGo, hout, ha]
    · have ha : ¬ attempt = maxRetries := by omega
      obtain ⟨q, hq⟩ := hb attempt
      rw [show f + 1 = Nat.succ f from rfl]
      simp only [runLoopGo, hout attempt, ha, if_false, hq]
      rw [ih (attempt + 1) (attempts + 1) (calls + 1) (sleeps + 1) hf (by omega)]
      have e1 : attempts + 1 + f = attempts + (f + 1) := by omega
      have e2 : calls + 1 + (f - 1) = calls + (f + 1 - 1) := by omega
      have e3 : sleeps + 1 + (f - 1) = sleeps + (f + 1 - 1) := by omega
      rw [e1, e2, e3]

lemma runLoopGo_backoffErr
    (handle : String → Option Json → Except PyErr (Json × Json))
    (backoff : Nat → Except PyErr ℚ) (outcomes : Nat → ApiOutcome)
    (maxRetries : Nat)
    (hb : ∀ n, ∃ e, backoff n = Except.error e) :
    ∀ fuel attempt attempts calls sleeps,
      (runLoopGo handle backoff outcomes maxRetries fuel attempt attempts calls sleeps).attempts
          ≤ attempts + 1 ∧
      (runLoopGo handle backoff outcomes maxRetries fuel attempt attempts calls sleeps).sleeps
          = sleeps := by
  intro fuel attempt attempts calls sleeps
  match fuel with
  | 0 => simp [runLoopGo]
  | f + 1 =>
    obtain ⟨e, he⟩ := hb attempt
    rcases houts : outcomes attempt with ⟨raw, parsed⟩ | _ | tag
    · rcases hh : handle raw parsed with v | err <;>
        simp [runLoopGo, houts, hh]
    · by_cases ha : attempt = maxRetries
      · subst ha
        simp [runLoopGo, houts]
      · simp [runLoopGo, houts, ha, he]
    · simp [runLoopGo, houts]

lemma runLoopGo_stopAtOtherError
    (handle : String → Option Json → Except PyErr (Json × Json))
    (backoff : Nat → Except PyErr ℚ) (outcomes : Nat → ApiOutcome)
    (maxRetries : Nat) (n : Nat) (tag : String)
    (hn : outcomes n = ApiOutcome.otherError tag) :
    ∀ fuel attempt attempts calls sleeps, attempt ≤ n →
      (runLoopGo handle backoff outcomes maxRetries fuel attempt attempts calls sleeps).attempts
        ≤ attempts + (n - attempt) + 1 := by
  intro fuel
  induction fuel with
  | zero => intro attempt attempts calls sleeps _; simp [runLoopGo]; omega
  | succ f ih =>
    intro attempt attempts calls sleeps hle
    rcases houts : outcomes attempt with ⟨raw, parsed⟩ | _ | t
    · rcases hh : handle raw parsed with v | err <;>
        simp [runLoopGo, houts, hh]
    · have hne : attempt ≠ n := by
        intro h; rw [h, hn] at houts; exact ApiOutcome.noConfusion houts
      have hlt : attempt < n := lt_of_le_of_ne hle hne
      by_cases ha : attempt = maxRetries
      · subst ha
        simp [runLoopGo, houts]
      · rcases hbq : backoff attempt with e | q
        · simp [runLoopGo, houts, ha, hbq]
        · have hle2 : attempt + 1 ≤ n := by omega
          have hrec := ih (attempt + 1) (attempts + 1) (calls + 1) (sleeps + 1) hle2
          have harith : attempts + 1 + (n - (attempt + 1)) + 1
              ≤ attempts + (n - attempt) + 1 := by omega
          simp only [runLoopGo, houts, ha, if_false, hbq]
          exact le_trans hrec harith
    · simp [runLoopGo, houts]

lemma openaiBackoff_isOk (initialWait maxWait u : ℚ) (n : Nat) :
    openaiExponentialBackoff initialWait maxWait u n
      = Except.ok (exponentialBackoffWait initialWait maxWait n * u) := by
  simp [openaiExponentialBackoff, moduleBackoff, openaiImportedNames,
    exponentialBackoffWait]

lemma claudeBackoff_isErr (initialWait maxWait u : ℚ) (n : Nat) :
    claudeExponentialBackoff initialWait maxWait u n
      = Except.error PyErr.nameError := by
  simp [claudeExponentialBackoff, moduleBackoff, claudeImportedNames]

/-- C1 (counterexample). With `max_retries = 3` and every attempt raising a
rate-limit error, `OpenAIService.generate_response` issues 3 attempts with
2 delays, not the 4 attempts with 3 delays the claim states. -/
theorem retryCountCounterexample :
    openaiGenerateResponseTrace 1 60 (fun _ => 1) (fun _ => ApiOutcome.rateLimit) 3
      = ⟨3, 2, 2, Except.error PyErr.rateLimitError⟩ ∧
    (openaiGenerateResponseTrace 1 60 (fun _ => 1) (fun _ => ApiOutcome.rateLimit) 3).attempts
      ≠ 4 ∧
    (openaiGenerateResponseTrace 1 60 (fun _ => 1) (fun _ => ApiOutcome.rateLimit) 3).sleeps
      ≠ 3 :=
  ⟨rfl, by decide, by decide⟩

/-- C1 (amended). With `max_retries = k ≥ 1` and every attempt raising a
rate-limit error, `OpenAIService.generate_response` attempts the
completion API exactly k times with exactly k-1 backoff delays between
them and then propagates the rate-limit error; in the same situation
`ClaudeAIService.generate_response` raises `NameError` out of its first
backoff computation when k ≥ 2 (one attempt, no delay), and propagates the
rate-limit error after its single attempt when k = 1. -/
theorem retryCountAmended (initialWait maxWait : ℚ) (u : Nat → ℚ)
    (outcomes : Nat → ApiOutcome) (k : Nat)
    (hk : 1 ≤ k) (hout : ∀ n, outcomes n = ApiOutcome.rateLimit) :
    openaiGenerateResponseTrace initialWait maxWait u outcomes k
      = ⟨k, k - 1, k - 1, Except.error PyErr.rateLimitError⟩ ∧
    (2 ≤ k → claudeGenerateResponseTrace initialWait maxWait u outcomes k
      = ⟨1, 1, 0, Except.error PyErr.nameError⟩) ∧
    (k = 1 → claudeGenerateResponseTrace initialWait maxWait u outcomes k
      = ⟨1, 0, 0, Except.error PyErr.rateLimitError⟩) := by
  refine ⟨?_, ?_, ?_⟩
  · have h := runLoopGo_allRateLimit openaiHandleContent
      (fun n => openaiExponentialBackoff initialWait maxWait (u n) n) outcomes k
      hout (fun n => ⟨_, openaiBackoff_isOk initialWait maxWait (u n) n⟩)
      k 1 0 0 0 hk (by omega)
    simpa [openaiGenerateResponseTrace, runLoop] using h
  · intro hk2
    obtain ⟨f, rfl⟩ : ∃ f, k = f + 1 := ⟨k - 1, by omega⟩
    have hne : (1 : Nat) ≠ f + 1 := by omega
    simp [claudeGenerateResponseTrace, runLoop, runLoopGo, hout 1, hne,
      claudeBackoff_isErr]
  · intro hk1
    subst hk1
    simp [claudeGenerateResponseTrace, runLoop, runLoopGo, hout 1]

/-- C1 (witness for the amended theorem), at k = 3 with all attempts
rate-limited. -/
theorem retryCountAmendedWitness :
    openaiGenerateResponseTrace 1 60 (fun _ => 1) (fun _ => ApiOutcome.rateLimit) 3
      = ⟨3, 2, 2, Except.error PyErr.rateLimitError⟩ ∧
    (2 ≤ 3 → claudeGenerateResponseTrace 1 60 (fun _ => 1) (fun _ => ApiOutcome.rateLimit) 3
      = ⟨1, 1, 0, Except.error PyErr.nameError⟩) ∧
    (3 = 1 → claudeGenerateResponseTrace 1 60 (fun _ => 1) (fun _ => ApiOutcome.rateLimit) 3
      = ⟨1, 0, 0, Except.error PyErr.rateLimitError⟩) :=
  retryCountAmended 1 60 (fun _ => 1) (fun _ => ApiOutcome.rateLimit) 3
    (by decide) (fun _ => rfl)

/-- C5. In both adapters, a non-rate-limit error on the first attempt ends
the call after exactly one attempt, with zero backoff computations and
zero delays, propagating that error unmodified; and a non-rate-limit error
on any attempt n is never retried, so no more than n attempts ever occur. -/
theorem nonRetryThm (initialWait maxWait : ℚ) (u : Nat → ℚ)
    (outcomes : Nat → ApiOutcome) (k : Nat) (tag : String)
    (hk : 1 ≤ k) (h1 : outcomes 1 = ApiOutcome.otherError tag) :
    openaiGenerateResponseTrace initialWait maxWait u outcomes k
      = ⟨1, 0, 0, Except.error (PyErr.otherError tag)⟩ ∧
    claudeGenerateResponseTrace initialWait maxWait u outcomes k
      = ⟨1, 0, 0, Except.error (PyErr.otherError tag)⟩ ∧
    (∀ n, 1 ≤ n → outcomes n = ApiOutcome.otherError tag →
      (openaiGenerateResponseTrace initialWait maxWait u outcomes k).attempts ≤ n ∧
      (claudeGenerateResponseTrace initialWait maxWait u outcomes k).attempts ≤ n) := by
  obtain ⟨f, rfl⟩ : ∃ f, k = f + 1 := ⟨k - 1, by omega⟩
  refine ⟨?_, ?_, ?_⟩
  · simp [openaiGenerateResponseTrace, runLoop, runLoopGo, h1]
  · simp [claudeGenerateResponseTrace, runLoop, runLoopGo, h1]
  · intro n hn hdn
    constructor
    · have h := runLoopGo_stopAtOtherError openaiHandleContent
        (fun m => openaiExponentialBackoff initialWait maxWait (u m) m)
        outcomes (f + 1) n tag hdn (f + 1) 1 0 0 0 hn
      simpa [openaiGenerateResponseTrace, runLoop] using le_trans h (by omega)
    · have h := runLoopGo_stopAtOtherError claudeHandleContent
        (fun m => claudeExponentialBackoff initialWait maxWait (u m) m)
        outcomes (f + 1) n tag hdn (f + 1) 1 0 0 0 hn
      simpa [claudeGenerateResponseTrace, runLoop] using le_trans h (by omega)

/-- C5 (witness), at k = 3 with an authentication failure on attempt 1. -/
theorem nonRetryWitness :
    openaiGenerateResponseTrace 1 60 (fun _ => 1)
        (fun _ => ApiOutcome.otherError "auth") 3
      = ⟨1, 0, 0, Except.error (PyErr.otherError "auth")⟩ ∧
    claudeGenerateResponseTrace 1 60 (fun _ => 1)
        (fun _ => ApiOutcome.otherError "auth") 3
      = ⟨1, 0, 0, Except.error (PyErr.otherError "auth")⟩ ∧
    (∀ n, 1 ≤ n → (fun _ => ApiOutcome.otherError "auth") n = ApiOutcome.otherError "auth" →
      (openaiGenerateResponseTrace 1 60 (fun _ => 1)
          (fun _ => ApiOutcome.otherError "auth") 3).attempts ≤ n ∧
      (claudeGenerateResponseTrace 1 60 (fun _ => 1)
          (fun _ => ApiOutcome.otherError "auth") 3).attempts ≤ n) :=
  nonRetryThm 1 60 (fun _ => 1) (fun _ => ApiOutcome.otherError "auth") 3 "auth"
    (by decide) rfl

/-- C8. The Claude adapter module never imports the name `random`, so its
`_exponential_backoff` always raises `NameError`; consequently
`ClaudeAIService.generate_response` never completes a sleep, never makes a
second (delayed) attempt, and a rate-limit error on an attempt before the
last propagates as `NameError` out of the backoff computation. -/
theorem claudeNameErrorThm (initialWait maxWait : ℚ) (u : Nat → ℚ)
    (outcomes : Nat → ApiOutcome) (k n : Nat) :
    "random" ∉ claudeImportedNames ∧
    claudeExponentialBackoff initialWait maxWait (u n) n
      = Except.error PyErr.nameError ∧
    (claudeGenerateResponseTrace initialWait maxWait u outcomes k).sleeps = 0 ∧
    (claudeGenerateResponseTrace initialWait maxWait u outcomes k).attempts ≤ 1 ∧
    (2 ≤ k → outcomes 1 = ApiOutcome.rateLimit →
      claudeGenerateResponseTrace initialWait maxWait u outcomes k
        = ⟨1, 1, 0, Except.error PyErr.nameError⟩) := by
  have herr : ∀ m, ∃ e, claudeExponentialBackoff initialWait maxWait (u m) m
      = Except.error e :=
    fun m => ⟨PyErr.nameError, claudeBackoff_isErr initialWait maxWait (u m) m⟩
  have hmain := runLoopGo_backoffErr claudeHandleContent
    (fun m => claudeExponentialBackoff initialWait maxWait (u m) m)
    outcomes k herr k 1 0 0 0
  refine ⟨by decide, claudeBackoff_isErr initialWait maxWait (u n) n, ?_, ?_, ?_⟩
  · simpa [claudeGenerateResponseTrace, runLoop] using hmain.2
  · simpa [claudeGenerateResponseTrace, runLoop] using hmain.1
  · intro hk2 h1
    obtain ⟨f, rfl⟩ : ∃ f, k = f + 1 := ⟨k - 1, by omega⟩
    have hne : (1 : Nat) ≠ f + 1 := by omega
    simp [claudeGenerateResponseTrace, runLoop, runLoopGo, h1, hne,
      claudeBackoff_isErr]

/-- C8 (witness), at k = 3 with a rate-limit error on every attempt. -/
theorem claudeNameErrorWitness :
    "random" ∉ claudeImportedNames ∧
    claudeExponentialBackoff 1 60 1 1 = Except.error PyErr.nameError ∧
    (claudeGenerateResponseTrace 1 60 (fun _ => 1)
        (fun _ => ApiOutcome.rateLimit) 3).sleeps = 0 ∧
    (claudeGenerateResponseTrace 1 60 (fun _ => 1)
        (fun _ => ApiOutcome.rateLimit) 3).attempts ≤ 1 ∧
    (2 ≤ 3 → (fun _ => ApiOutcome.rateLimit) 1 = ApiOutcome.rateLimit →
      claudeGenerateResponseTrace 1 60 (fun _ => 1) (fun _ => ApiOutcome.rateLimit) 3
        = ⟨1, 1, 0, Except.error PyErr.nameError⟩) :=
  claudeNameErrorThm 1 60 (fun _ => 1) (fun _ => ApiOutcome.rateLimit) 3 1

/-- Outcome of one attempt inside `OpenAIService.generate_api_response`:
the API call and the subsequent `json.loads` both succeeded, or parsing
raised `json.JSONDecodeError` / `KeyError`, or the SDK raised
`RateLimitError`, or some other exception. -/
inductive ApiOutcome2 where
  | success (parsed : Json)
  | parseError
  | rateLimit
  | otherError (tag : String)

/-- Observable trace of one invocation of `generate_api_response` or
`generate_response_with_resources`: attempts issued, completed sleeps, and
the returned value or raised exception. -/
structure Trace2 (α : Type) where
  attempts : Nat
  sleeps : Nat
  result : Except PyErr α

/-- The `for attempt in range(1, self._max_retries + 1)` loop of
`OpenAIService.generate_api_response` (openai_service.py lines 345-377).
Every branch of the body leaves the loop: success returns the parsed
dict; a retryable error before the last attempt sleeps and then
`return {}` from inside the except block; a retryable error on the last
attempt raises `RuntimeError`; any other error raises `RuntimeError`
immediately. Falling out of the loop returns `{}`. -/
def apiGo (outcomes : Nat → ApiOutcome2) (maxRetries : Nat) :
    Nat → Nat → Nat → Nat → Trace2 Json
  | 0, _, attempts, sleeps => ⟨attempts, sleeps, Except.ok (Json.obj [])⟩
  | _fuel + 1, attempt, attempts, sleeps =>
      match outcomes attempt with
      | ApiOutcome2.success parsed => ⟨attempts + 1, sleeps, Except.ok parsed⟩
      | ApiOutcome2.parseError =>
          if attempt = maxRetries then
            ⟨attempts + 1, sleeps,
              Except.error (PyErr.runtimeError "Failed to parse JSON from LLM")⟩
          else ⟨attempts + 1, sleeps + 1, Except.ok (Json.obj [])⟩
      | ApiOutcome2.rateLimit =>
          if attempt = maxRetries then
            ⟨attempts + 1, sleeps,
              Except.error (PyErr.runtimeError "Rate limit exceeded for LLM requests.")⟩
          else ⟨attempts + 1, sleeps + 1, Except.ok (Json.obj [])⟩
      | ApiOutcome2.otherError tag =>
          ⟨attempts + 1, sleeps,
            Except.error (PyErr.runtimeError
              ("Unexpected error during LLM response generation: " ++ tag))⟩

/-- Trace of `OpenAIService.generate_api_response` (lines 345-377). -/
def generateApiResponseTrace (outcomes : Nat → ApiOutcome2) (maxRetries : Nat) :
    Trace2 Json :=
  apiGo outcomes maxRetries maxRetries 1 0 0

/-- The retry loop of `OpenAIService.generate_response_with_resources`
(openai_service.py lines 390-426). Success returns the raw content
string (its dead `except json.JSONDecodeError` branch is unreachable, as
`json.loads` is never called); a rate-limit error before the last attempt
sleeps and then `return ""` from inside the except block; a rate-limit
error on the last attempt re-raises; any other error re-raises. Falling
out of the loop returns the empty string. -/
def resourcesGo (outcomes : Nat → ApiOutcome) (maxRetries : Nat) :
    Nat → Nat → Nat → Nat → Trace2 String
  | 0, _, attempts, sleeps => ⟨attempts, sleeps, Except.ok ""⟩
  | _fuel + 1, attempt, attempts, sleeps =>
      match outcomes attempt with
      | ApiOutcome.success raw _ => ⟨attempts + 1, sleeps, Except.ok raw⟩
      | ApiOutcome.rateLimit =>
          if attempt = maxRetries then
            ⟨attempts + 1, sleeps, Except.error PyErr.rateLimitError⟩
          else ⟨attempts + 1, sleeps + 1, Except.ok ""⟩
      | ApiOutcome.otherError tag =>
          ⟨attempts + 1, sleeps, Except.error (PyErr.otherError tag)⟩

/-- Trace of `OpenAIService.generate_response_with_resources` (lines 390-426). -/
def generateResponseWithResourcesTrace (outcomes : Nat → ApiOutcome)
    (maxRetries : Nat) : Trace2 String :=
  resourcesGo outcomes maxRetries maxRetries 1 0 0

/-- C9. `generate_api_response` and `generate_response_with_resources`
never issue more than one completion API call per invocation: a retryable
error (rate limit, or for `generate_api_response` also a JSON decode /
key error) before the last attempt sleeps for the backoff delay and then
returns the default value from inside the except block instead of
continuing the loop. -/
theorem singleCallThm (outcomes : Nat → ApiOutcome2)
    (outcomes2 : Nat → ApiOutcome) (k : Nat) :
    (generateApiResponseTrace outcomes k).attempts ≤ 1 ∧
    (generateResponseWithResourcesTrace outcomes2 k).attempts ≤ 1 ∧
    (2 ≤ k → outcomes 1 = ApiOutcome2.rateLimit →
      generateApiResponseTrace outcomes k = ⟨1, 1, Except.ok (Json.obj [])⟩) ∧
    (2 ≤ k → outcomes 1 = ApiOutcome2.parseError →
      generateApiResponseTrace outcomes k = ⟨1, 1, Except.ok (Json.obj [])⟩) ∧
    (2 ≤ k → outcomes2 1 = ApiOutcome.rateLimit →
      generateResponseWithResourcesTrace outcomes2 k = ⟨1, 1, Except.ok ""⟩) := by
  refine ⟨?_, ?_, ?_, ?_, ?_⟩
  · match k with
    | 0 => simp [generateApiResponseTrace, apiGo]
    | 1 =>
      rcases h1 : outcomes 1 with parsed | _ | _ | tag <;>
        simp [generateApiResponseTrace, apiGo, h1]
    | f + 2 =>
      have hne : (1 : Nat) ≠ f + 2 := by omega
      rcases h1 : outcomes 1 with parsed | _ | _ | tag <;>
        simp [generateApiResponseTrace, apiGo, h1, hne]
  · match k with
    | 0 => simp [generateResponseWithResourcesTrace, resourcesGo]
    | 1 =>
      rcases h1 : outcomes2 1 with ⟨raw, parsed⟩ | _ | tag <;>
        simp [generateResponseWithResourcesTrace, resourcesGo, h1]
    | f + 2 =>
      have hne : (1 : Nat) ≠ f + 2 := by omega
      rcases h1 : outcomes2 1 with ⟨raw, parsed⟩ | _ | tag <;>
        simp [generateResponseWithResourcesTrace, resourcesGo, h1, hne]
  · intro hk2 h1
    obtain ⟨f, rfl⟩ : ∃ f, k = f + 1 := ⟨k - 1, by omega⟩
    have hne : (1 : Nat) ≠ f + 1 := by omega
    simp [generateApiResponseTrace, apiGo, h1, hne]
  · intro hk2 h1
    obtain ⟨f, rfl⟩ : ∃ f, k = f + 1 := ⟨k - 1, by omega⟩
    have hne : (1 : Nat) ≠ f + 1 := by omega
    simp [generateApiResponseTrace, apiGo, h1, hne]
  · intro hk2 h1
    obtain ⟨f, rfl⟩ : ∃ f, k = f + 1 := ⟨k - 1, by omega⟩
    have hne : (1 : Nat) ≠ f + 1 := by omega
    simp [generateResponseWithResourcesTrace, resourcesGo, h1, hne]

/-- C9 (witness), at k = 3 with a rate-limit error on every attempt. -/
theorem singleCallWitness :
    (generateApiResponseTrace (fun _ => ApiOutcome2.rateLimit) 3).attempts ≤ 1 ∧
    (generateResponseWithResourcesTrace (fun _ => ApiOutcome.rateLimit) 3).attempts ≤ 1 ∧
    (2 ≤ 3 → (fun _ => ApiOutcome2.rateLimit) 1 = ApiOutcome2.rateLimit →
      generateApiResponseTrace (fun _ => ApiOutcome2.rateLimit) 3
        = ⟨1, 1, Except.ok (Json.obj [])⟩) ∧
    (2 ≤ 3 → (fun _ => ApiOutcome2.rateLimit) 1 = ApiOutcome2.parseError →
      generateApiResponseTrace (fun _ => ApiOutcome2.rateLimit) 3
        = ⟨1, 1, Except.ok (Json.obj [])⟩) ∧
    (2 ≤ 3 → (fun _ => ApiOutcome.rateLimit) 1 = ApiOutcome.rateLimit →
      generateResponseWithResourcesTrace (fun _ => ApiOutcome.rateLimit) 3
        = ⟨1, 1, Except.ok ""⟩) :=
  singleCallThm (fun _ => ApiOutcome2.rateLimit) (fun _ => ApiOutcome.rateLimit) 3

/-- C4. The computed backoff delay is exactly
`min(max_wait, initial_wait * 2 ** (attempt - 1))` times the uniform
jitter draw u from the range 0.5 to 1.5; the un-jittered wait is
non-decreasing in the attempt number and never exceeds `max_wait`; and
once the exponential term reaches the cap, the jittered delay lies
between half and one-and-a-half times `max_wait`. -/
theorem backoffBoundsThm (initialWait maxWait u : ℚ) (n : Nat)
    (hi : 0 < initialWait) (him : initialWait ≤ maxWait)
    (hn : 1 ≤ n) (hu1 : 1 / 2 ≤ u) (hu2 : u ≤ 3 / 2) :
    openaiExponentialBackoff initialWait maxWait u n
      = Except.ok (exponentialBackoffWait initialWait maxWait n * u) ∧
    exponentialBackoffWait initialWait maxWait n
      ≤ exponentialBackoffWait initialWait maxWait (n + 1) ∧
    exponentialBackoffWait initialWait maxWait n ≤ maxWait ∧
    (maxWait ≤ initialWait * 2 ^ (n - 1) →
      maxWait * (1 / 2) ≤ exponentialBackoffWait initialWait maxWait n * u ∧
      exponentialBackoffWait initialWait maxWait n * u ≤ maxWait * (3 / 2)) := by
  have hmw : (0 : ℚ) ≤ maxWait := le_trans (le_of_lt hi) him
  refine ⟨openaiBackoff_isOk initialWait maxWait u n, ?_, min_le_left _ _, ?_⟩
  · unfold exponentialBackoffWait
    refine min_le_min (le_refl maxWait) ?_
    have hp : (2 : ℚ) ^ (n - 1) ≤ 2 ^ (n + 1 - 1) := by
      apply pow_le_pow_right₀ (by norm_num)
      omega
    exact mul_le_mul_of_nonneg_left hp (le_of_lt hi)
  · intro hcap
    have hw : exponentialBackoffWait initialWait maxWait n = maxWait := by
      unfold exponentialBackoffWait
      exact min_eq_left hcap
    rw [hw]
    exact ⟨mul_le_mul_of_nonneg_left hu1 hmw, mul_le_mul_of_nonneg_left hu2 hmw⟩

/-- C4 (witness), with initial wait one half, cap 60, attempt 8 (where the
exponential term 64 exceeds the cap) and jitter draw 1. -/
theorem backoffBoundsWitness :
    openaiExponentialBackoff (1 / 2) 60 1 8
      = Except.ok (exponentialBackoffWait (1 / 2) 60 8 * 1) ∧
    exponentialBackoffWait (1 / 2) 60 8 ≤ exponentialBackoffWait (1 / 2) 60 9 ∧
    exponentialBackoffWait (1 / 2) 60 8 ≤ 60 ∧
    ((60 : ℚ) ≤ 1 / 2 * 2 ^ (8 - 1) →
      (60 : ℚ) * (1 / 2) ≤ exponentialBackoffWait (1 / 2) 60 8 * 1 ∧
      exponentialBackoffWait (1 / 2) 60 8 * 1 ≤ 60 * (3 / 2)) :=
  backoffBoundsThm (1 / 2) 60 1 8 (by norm_num) (by norm_num) (by norm_num)
    (by norm_num) (by norm_num)

/-- A conversation history entry, with a role and a content string. -/
structure PyMessage where
  role : String
  content : String

/-- The Python slice `xs[-n:]`: the last n elements. -/
def lastN (n : Nat) (xs : List PyMessage) : List PyMessage :=
  xs.drop (xs.length - n)

/-- The f-string `f'Resource: \x7bresource\x7d\n'` applied to the textual
rendering of one knowledge-base resource. -/
def renderResource (r : String) : String :=
  "Resource: " ++ r ++ "\n"

/-- The fixed system prompt template
`f"\x7bprompt.text\x7d\n\n\x7bself._system_prompt\x7d\n"`. -/
def systemTemplate (promptText systemPrompt : String) : String :=
  promptText ++ "\n\n" ++ systemPrompt ++ "\n"

/-- Token count of the fixed system prompt template
(`system_prompt_tokens` in the source). -/
def fixedTokens (count : String → Nat) (promptText systemPrompt : String) : Nat :=
  count (systemTemplate promptText systemPrompt)

/-- Token count of the last 15 history messages (`message_tokens`). -/
def historyTokens (count : String → Nat) (messages : List PyMessage) : Nat :=
  ((lastN 15 messages).map (fun m => count m.content)).sum

/-- `available_tokens = max_context_length - system_prompt_tokens -
message_tokens - reserved_tokens`, with `reserved_tokens = 5000`
hard-coded in the source; Python ints can go negative, hence `Int`. -/
def availableTokens (count : String → Nat) (maxContextLength : Nat)
    (promptText systemPrompt : String) (messages : List PyMessage) : Int :=
  (maxContextLength : Int) - fixedTokens count promptText systemPrompt
    - historyTokens count messages - 5000

/-- The greedy knowledge-base trimming loop of
`_prepare_messages_with_token_limit` (openai_service.py lines 94-103):
append each rendered resource while the running total stays within the
available budget; break, discarding the rest, at the first one that
would overflow. -/
def knowledgeLoop (count : String → Nat) (available : Int) :
    List String → Nat → List String
  | [], _ => []
  | r :: rs, total =>
      if (total : Int) + count (renderResource r) ≤ available then
        renderResource r :: knowledgeLoop count available rs (total + count (renderResource r))
      else []

/-- `OpenAIService._prepare_messages_with_token_limit` (openai_service.py
lines 68-120): compute the token budget, greedily trim the knowledge
base, join it onto the system prompt template, and append the last 15
history messages. -/
def prepareMessagesWithTokenLimit (count : String → Nat)
    (maxContextLength : Nat) (systemPrompt promptText : String)
    (resources : List String) (messages : List PyMessage) : List PyMessage :=
  PyMessage.mk "system"
      (systemTemplate promptText systemPrompt
        ++ String.intercalate "\n"
            (knowledgeLoop count
              (availableTokens count maxContextLength promptText systemPrompt messages)
              resources 0))
    :: (lastN 15 messages).map (fun m => PyMessage.mk m.role m.content)

lemma knowledgeLoop_sum (count : String → Nat) (available : Int) :
    ∀ (rs : List String) (total : Nat), (total : Int) ≤ available →
      (((knowledgeLoop count available rs total).map count).sum : Int) + total
        ≤ available := by
  intro rs
  induction rs with
  | nil => intro total ht; simpa [knowledgeLoop]
  | cons r rs ih =>
    intro total ht
    by_cases h : (total : Int) + count (renderResource r) ≤ available
    · have := ih (total + count (renderResource r)) (by push_cast; omega)
      simp only [knowledgeLoop, if_pos h, List.map_cons, List.sum_cons]
      push_cast
      push_cast at this
      omega
    · simp only [knowledgeLoop, if_neg h, List.map_nil, List.sum_nil]
      omega

lemma knowledgeLoop_neg (count : String → Nat) (available : Int)
    (hav : available < 0) (rs : List String) (total : Nat) :
    knowledgeLoop count available rs total = [] := by
  cases rs with
  | nil => rfl
  | cons r rs =>
    have h : ¬ ((total : Int) + count (renderResource r) ≤ available) := by
      have h1 : (0 : Int) ≤ (total : Int) := Int.natCast_nonneg total
      have h2 : (0 : Int) ≤ (count (renderResource r) : Int) := Int.natCast_nonneg _
      omega
    simp [knowledgeLoop, h]

lemma knowledgeLoop_take (count : String → Nat) (available : Int) :
    ∀ (rs : List String) (total : Nat),
      ∃ n, n ≤ rs.length ∧
        knowledgeLoop count available rs total = (rs.map renderResource).take n ∧
        (n = rs.length ∨
          ¬ ((total : Int) + (((rs.map renderResource).take n).map count).sum
              + count (renderResource (rs.getD n "")) ≤ available)) := by
  intro rs
  induction rs with
  | nil =>
    intro total
    exact ⟨0, by simp, by simp [knowledgeLoop], Or.inl rfl⟩
  | cons r rs ih =>
    intro total
    by_cases h : (total : Int) + count (renderResource r) ≤ available
    · obtain ⟨n, hlen, heq, hstop⟩ := ih (total + count (renderResource r))
      refine ⟨n + 1, by simpa using hlen, ?_, ?_⟩
      · simp only [knowledgeLoop, if_pos h, List.map_cons, List.take_succ_cons, heq]
      · rcases hstop with hfull | hov
        · exact Or.inl (by simp [hfull])
        · refine Or.inr ?_
          intro hc
          apply hov
          simp only [List.map_cons, List.take_succ_cons, List.sum_cons,
            List.getD_cons_succ] at hc
          push_cast at hc ⊢
          omega
    · refine ⟨0, by simp, by simp [knowledgeLoop, h], Or.inr ?_⟩
      intro hc
      apply h
      simp only [List.take_zero, List.map_nil, List.sum_nil, List.getD_cons_zero] at hc
      omega

/-- C2 (counterexample). With `count` the string length, a context limit
of 5001 (above the hard-coded 5000 reserved tokens), an empty prompt and
a single 100-character history message, the fixed and history tokens
alone exceed the budget: `available` is negative, the included snippets'
token sum (0) does not stay at most `available`, and the assembled
prompt's total counted tokens exceed `max_context - reserved` by far more
than the one counted snippet's overhead. -/
theorem tokenBudgetCounterexample :
    availableTokens String.length 5001 "" ""
        [PyMessage.mk "user" (String.mk (List.replicate 100 'a'))] = -102 ∧
    knowledgeLoop String.length
        (availableTokens String.length 5001 "" ""
          [PyMessage.mk "user" (String.mk (List.replicate 100 'a'))]) ["x"] 0 = [] ∧
    ¬ ((((knowledgeLoop String.length
          (availableTokens String.length 5001 "" ""
            [PyMessage.mk "user" (String.mk (List.replicate 100 'a'))]) ["x"] 0).map
          String.length).sum : Int)
        ≤ availableTokens String.length 5001 "" ""
            [PyMessage.mk "user" (String.mk (List.replicate 100 'a'))]) ∧
    ¬ ((fixedTokens String.length "" "" : Int)
        + historyTokens String.length
            [PyMessage.mk "user" (String.mk (List.replicate 100 'a'))]
        + (((knowledgeLoop String.length
              (availableTokens String.length 5001 "" ""
                [PyMessage.mk "user" (String.mk (List.replicate 100 'a'))]) ["x"] 0).map
              String.length).sum : Int)
        ≤ (5001 : Int) - 5000 + String.length (renderResource "x")) := by
  refine ⟨by decide, by decide, by decide, by decide⟩

/-- C2 (amended). Whenever the available budget
`max_context - fixed - history - reserved` is non-negative, the token
counts of the included knowledge snippets sum to at most `available`, and
the assembled prompt's total counted tokens (fixed plus history plus
knowledge) stay at most `max_context_tokens - reserved_output_tokens`;
when fixed plus history already exceed that budget the knowledge section
is simply empty and no bound on the total holds. -/
theorem tokenBudgetAmended (count : String → Nat) (maxContextLength : Nat)
    (systemPrompt promptText : String) (resources : List String)
    (messages : List PyMessage)
    (h : 0 ≤ availableTokens count maxContextLength promptText systemPrompt messages) :
    (((knowledgeLoop count
          (availableTokens count maxContextLength promptText systemPrompt messages)
          resources 0).map count).sum : Int)
      ≤ availableTokens count maxContextLength promptText systemPrompt messages ∧
    (fixedTokens count promptText systemPrompt : Int)
      + historyTokens count messages
      + (((knowledgeLoop count
            (availableTokens count maxContextLength promptText systemPrompt messages)
            resources 0).map count).sum : Int)
      ≤ (maxContextLength : Int) - 5000 := by
  have hsum := knowledgeLoop_sum count
    (availableTokens count maxContextLength promptText systemPrompt messages)
    resources 0 (by simpa using h)
  constructor
  · simpa using hsum
  · have hdef : availableTokens count maxContextLength promptText systemPrompt messages
        = (maxContextLength : Int) - fixedTokens count promptText systemPrompt
          - historyTokens count messages - 5000 := rfl
    omega

/-- C2 (witness for the amended theorem), with length-counting, context
limit 6000, empty prompt and history, and one snippet. -/
theorem tokenBudgetAmendedWitness :
    (((knowledgeLoop String.length
          (availableTokens String.length 6000 "" "" []) ["x"] 0).map
          String.length).sum : Int)
      ≤ availableTokens String.length 6000 "" "" [] ∧
    (fixedTokens String.length "" "" : Int) + historyTokens String.length []
        + (((knowledgeLoop String.length
              (availableTokens String.length 6000 "" "" []) ["x"] 0).map
              String.length).sum : Int)
      ≤ (6000 : Int) - 5000 :=
  tokenBudgetAmended String.length 6000 "" "" ["x"] [] (by decide)

/-- C6. The set of snippets included by the trimming loop is a contiguous
prefix of the rendered input sequence (each element a whole rendered
snippet, never a partial one); when the budget is non-negative the
included token counts stay within it; and either all snippets are
included or the first excluded snippet is exactly the one that would
overflow the running total. -/
theorem snippetAtomicityThm (count : String → Nat) (available : Int)
    (resources : List String) :
    ∃ n, n ≤ resources.length ∧
      knowledgeLoop count available resources 0
        = (resources.map renderResource).take n ∧
      (0 ≤ available →
        ((((resources.map renderResource).take n).map count).sum : Int) ≤ available) ∧
      (n = resources.length ∨
        ¬ (((((resources.map renderResource).take n).map count).sum : Int)
            + count (renderResource (resources.getD n "")) ≤ available)) := by
  obtain ⟨n, hlen, heq, hstop⟩ := knowledgeLoop_take count available resources 0
  refine ⟨n, hlen, heq, ?_, ?_⟩
  · intro hav
    have hsum := knowledgeLoop_sum count available resources 0 (by simpa using hav)
    rw [heq] at hsum
    simpa using hsum
  · rcases hstop with hfull | hov
    · exact Or.inl hfull
    · refine Or.inr ?_
      intro hc
      apply hov
      simpa using hc

/-- C6 (witness), at a concrete budget and snippet list. -/
theorem snippetAtomicityWitness :
    ∃ n, n ≤ (["aa", "bb", String.mk (List.replicate 40 'c')] : List String).length ∧
      knowledgeLoop String.length 30 ["aa", "bb", String.mk (List.replicate 40 'c')] 0
        = ((["aa", "bb", String.mk (List.replicate 40 'c')] : List String).map
            renderResource).take n ∧
      ((0 : Int) ≤ 30 →
        ((((((["aa", "bb", String.mk (List.replicate 40 'c')] : List String).map
            renderResource).take n).map String.length).sum : Int) ≤ 30)) ∧
      (n = (["aa", "bb", String.mk (List.replicate 40 'c')] : List String).length ∨
        ¬ ((((((["aa", "bb", String.mk (List.replicate 40 'c')] : List String).map
              renderResource).take n).map String.length).sum : Int)
            + String.length (renderResource
                ((["aa", "bb", String.mk (List.replicate 40 'c')] : List String).getD n ""))
            ≤ 30)) :=
  snippetAtomicityThm String.length 30 ["aa", "bb", String.mk (List.replicate 40 'c')]

/-- C7. Prompt assembly is a total pure function: it always returns the
system message followed by the (at most 15) trimmed history messages;
with no knowledge snippets the system message is exactly the template
(instructions only); and when the available budget is non-positive (given
that every rendered snippet counts at least one token, as any real
tokenizer does on these non-empty strings) the knowledge section is empty
and the same instructions-only prompt is produced, with no error. -/
theorem promptAssemblyTotalThm (count : String → Nat) (maxContextLength : Nat)
    (systemPrompt promptText : String) (resources : List String)
    (messages : List PyMessage) :
    (prepareMessagesWithTokenLimit count maxContextLength systemPrompt promptText
        resources messages).length = (lastN 15 messages).length + 1 ∧
    (resources = [] →
      prepareMessagesWithTokenLimit count maxContextLength systemPrompt promptText
          resources messages
        = PyMessage.mk "system" (systemTemplate promptText systemPrompt)
            :: (lastN 15 messages).map (fun m => PyMessage.mk m.role m.content)) ∧
    (availableTokens count maxContextLength promptText systemPrompt messages ≤ 0 →
      (∀ r ∈ resources, 0 < count (renderResource r)) →
      knowledgeLoop count
          (availableTokens count maxContextLength promptText systemPrompt messages)
          resources 0 = [] ∧
      prepareMessagesWithTokenLimit count maxContextLength systemPrompt promptText
          resources messages
        = PyMessage.mk "system" (systemTemplate promptText systemPrompt)
            :: (lastN 15 messages).map (fun m => PyMessage.mk m.role m.content)) := by
  refine ⟨?_, ?_, ?_⟩
  · simp [prepareMessagesWithTokenLimit]
  · intro hres
    subst hres
    simp [prepareMessagesWithTokenLimit, knowledgeLoop, String.intercalate]
  · intro hav hpos
    have hempty : knowledgeLoop count
        (availableTokens count maxContextLength promptText systemPrompt messages)
        resources 0 = [] := by
      cases resources with
      | nil => rfl
      | cons r rs =>
        have hr : 0 < count (renderResource r) := hpos r (by simp)
        have h : ¬ ((0 : Int) + count (renderResource r)
            ≤ availableTokens count maxContextLength promptText systemPrompt messages) := by
          omega
        simpa [knowledgeLoop] using h
    refine ⟨hempty, ?_⟩
    simp [prepareMessagesWithTokenLimit, hempty, String.intercalate]

/-- C7 (witness), with an exhausted budget and one positive-count snippet. -/
theorem promptAssemblyTotalWitness :
    (prepareMessagesWithTokenLimit String.length 0 "" "" ["x"] []).length
        = (lastN 15 []).length + 1 ∧
    ((["x"] : List String) = [] →
      prepareMessagesWithTokenLimit String.length 0 "" "" ["x"] []
        = PyMessage.mk "system" (systemTemplate "" "")
            :: (lastN 15 []).map (fun m => PyMessage.mk m.role m.content)) ∧
    (availableTokens String.length 0 "" "" [] ≤ 0 →
      (∀ r ∈ (["x"] : List String), 0 < String.length (renderResource r)) →
      knowledgeLoop String.length (availableTokens String.length 0 "" "" []) ["x"] 0
          = [] ∧
      prepareMessagesWithTokenLimit String.length 0 "" "" ["x"] []
        = PyMessage.mk "system" (systemTemplate "" "")
            :: (lastN 15 []).map (fun m => PyMessage.mk m.role m.content)) :=
  promptAssemblyTotalThm String.length 0 "" "" ["x"] []

/-- C3 (counterexample). On the JSON object with message field
containing literal double stars, `ClaudeAIService.generate_response`
returns the message verbatim: the emphasis markup is not stripped there,
contrary to the claim that the parser strips it in either adapter. -/
theorem parseContractCounterexample :
    claudeHandleContent "x" (some (Json.obj [("message", Json.str "**hi**")]))
      = Except.ok (Json.str "**hi**", Json.obj []) ∧
    stripEmphasis "**hi**" = "hi" ∧
    ("**hi**" : String) ≠ "hi" :=
  ⟨rfl, rfl, by decide⟩

/-- C3 (amended). For every raw response text: if it parses as a JSON
object whose `message` field is absent or a string, the OpenAI adapter
returns that message with the double-star markup stripped while the
Claude adapter returns it unchanged, and both return the `payload` field
(empty mapping if absent); if JSON parsing fails, both adapters return
the raw response text unchanged together with the sentinel error payload,
raising no error. -/
theorem parseContractAmended (raw : String) (fields : List (String × Json)) :
    (openaiHandleContent raw none = Except.ok (Json.str raw, errorPayload) ∧
     claudeHandleContent raw none = Except.ok (Json.str raw, errorPayload)) ∧
    (∀ s, dictGet fields "message" = some (Json.str s) →
      openaiHandleContent raw (some (Json.obj fields))
        = Except.ok (Json.str (stripEmphasis s),
            (dictGet fields "payload").getD (Json.obj [])) ∧
      claudeHandleContent raw (some (Json.obj fields))
        = Except.ok (Json.str s, (dictGet fields "payload").getD (Json.obj []))) ∧
    (dictGet fields "message" = none →
      openaiHandleContent raw (some (Json.obj fields))
        = Except.ok (Json.str "", (dictGet fields "payload").getD (Json.obj [])) ∧
      claudeHandleContent raw (some (Json.obj fields))
        = Except.ok (Json.str "", (dictGet fields "payload").getD (Json.obj []))) := by
  refine ⟨⟨rfl, rfl⟩, ?_, ?_⟩
  · intro s hs
    constructor
    · simp [openaiHandleContent, hs]
    · simp [claudeHandleContent, hs]
  · intro hs
    constructor
    · simp [openaiHandleContent, hs, stripEmphasis, removeDoubleStar]
    · simp [claudeHandleContent, hs]

/-- C3 (witness for the amended theorem), on a message with markup. -/
theorem parseContractAmendedWitness :
    (openaiHandleContent "a" none = Except.ok (Json.str "a", errorPayload) ∧
     claudeHandleContent "a" none = Except.ok (Json.str "a", errorPayload)) ∧
    openaiHandleContent "a" (some (Json.obj [("message", Json.str "**b**")]))
      = Except.ok (Json.str "b", Json.obj []) ∧
    claudeHandleContent "a" (some (Json.obj [("message", Json.str "**b**")]))
      = Except.ok (Json.str "**b**", Json.obj []) := by
  have h := parseContractAmended "a" [("message", Json.str "**b**")]
  have h2 := h.2.1 "**b**" rfl
  exact ⟨h.1, h2.1, h2.2⟩

/-- C10. On a response text that fails JSON parsing, both adapters return
the raw text paired with exactly the sentinel mapping containing the key
`error`; this fallback inhabits the same result shape as the structured
success case, so that a structured success can produce a value identical
to the fallback (distinguishable only by inspecting the payload for the
sentinel key). -/
theorem fallbackSentinelThm (raw : String) :
    openaiHandleContent raw none = Except.ok (Json.str raw, errorPayload) ∧
    claudeHandleContent raw none = Except.ok (Json.str raw, errorPayload) ∧
    (stripEmphasis raw = raw →
      ∃ j, openaiHandleContent raw (some j)
        = Except.ok (Json.str raw, errorPayload)) ∧
    (∃ j, claudeHandleContent raw (some j)
        = Except.ok (Json.str raw, errorPayload)) := by
  refine ⟨rfl, rfl, ?_, ?_⟩
  · intro hstrip
    refine ⟨Json.obj [("message", Json.str raw), ("payload", errorPayload)], ?_⟩
    simp [openaiHandleContent, dictGet, List.lookup, hstrip]
  · refine ⟨Json.obj [("message", Json.str raw), ("payload", errorPayload)], ?_⟩
    simp [claudeHandleContent, dictGet, List.lookup]

/-- C10 (witness), at the raw text of the spec's parse round-trip example. -/
theorem fallbackSentinelWitness :
    openaiHandleContent "not json" none
      = Except.ok (Json.str "not json", errorPayload) ∧
    claudeHandleContent "not json" none
      = Except.ok (Json.str "not json", errorPayload) ∧
    (stripEmphasis "not json" = "not json" →
      ∃ j, openaiHandleContent "not json" (some j)
        = Except.ok (Json.str "not json", errorPayload)) ∧
    (∃ j, claudeHandleContent "not json" (some j)
        = Except.ok (Json.str "not json", errorPayload)) :=
  fallbackSentinelThm "not json"
